import Mathlib

/-!
Verification of the build-and-cache orchestration layer of the keops
repository (file `keops/config/config.py`), against its natural-language
specification.  The Python module is shallowly embedded: the filesystem is
an explicit state (directories and files), module-level initialisation
code and functions become Lean functions on that state, and code that can
raise returns `Except`.
-/

/-- A filesystem state: which directories exist, and the contents of each
existing file.  Paths are plain strings, joined with `"/"` as in the
source (`os.path.join`). -/
structure FS where
  dirs : String → Bool
  files : String → Option String

/-- A path lies inside the tree rooted at `root` (it is the root itself or
has `root ++ "/"` in front).  `shutil.rmtree` removes exactly this tree. -/
def underRoot (root p : String) : Bool :=
  p == root || p.startsWith (root ++ "/")

/-- `os.path.exists` on a directory. -/
def FS.dirExists (fs : FS) (p : String) : Bool := fs.dirs p

/-- `open(p).read()`: `some` contents when the file exists, `none`
(a `FileNotFoundError` at the call site) otherwise. -/
def FS.readFile (fs : FS) (p : String) : Option String := fs.files p

/-- `open(p, "w"); write(c)`. -/
def FS.writeFile (fs : FS) (p c : String) : FS :=
  { fs with files := fun q => if q = p then some c else fs.files q }

/-- `os.makedirs(p)` (parent creation is not tracked; no claim needs it). -/
def FS.makedirs (fs : FS) (p : String) : FS :=
  { fs with dirs := fun q => if q = p then true else fs.dirs q }

/-- `shutil.rmtree(root)`: recursively delete the tree rooted at `root`. -/
def FS.rmtree (fs : FS) (root : String) : FS :=
  { dirs := fun q => if underRoot root q then false else fs.dirs q,
    files := fun q => if underRoot root q then none else fs.files q }

/-- Python `str.rstrip()` restricted to its no-argument form: drop
trailing whitespace. -/
def rstrip (s : String) : String :=
  String.mk (List.dropWhile Char.isWhitespace s.data.reverse).reverse

/-- `version_cache_file = join(keops_cache_folder, "keops_version")`,
with the cache root as a parameter (a fixed per-user path in the source). -/
def version_cache_file (keops_cache_folder : String) : String :=
  keops_cache_folder ++ "/keops_version"

/-- The module-level cache-initialisation block of `config.py`
(lines 21-39): if the cache root exists, open and read the version stamp
(`.error` models the uncaught `FileNotFoundError` when the stamp file is
missing); on a version mismatch, wipe the tree and reinitialise;
if the root does not exist, create it and write the stamp. -/
def initCache (keops_cache_folder version : String) (fs : FS) :
    Except String FS :=
  if fs.dirExists keops_cache_folder then
    match fs.readFile (version_cache_file keops_cache_folder) with
    | none => .error "FileNotFoundError"
    | some contents =>
      let cache_version := rstrip contents
      if cache_version ≠ version then
        let fs1 := fs.rmtree keops_cache_folder
        let fs2 := fs1.makedirs keops_cache_folder
        .ok (fs2.writeFile (version_cache_file keops_cache_folder) version)
      else
        .ok fs
  else
    let fs2 := fs.makedirs keops_cache_folder
    .ok (fs2.writeFile (version_cache_file keops_cache_folder) version)

/-- A concrete filesystem used by witnesses: the cache root exists and is
stamped with version `"1.0"`, next to one stale artifact file. -/
def fsStale : FS :=
  { dirs := fun q => q = "/h/.cache/keops" || q = "/h/.cache/keops/build",
    files := fun q =>
      if q = "/h/.cache/keops/keops_version" then some "1.0"
      else if q = "/h/.cache/keops/build/old.so" then some "stale"
      else none }

/-- A concrete filesystem used by witnesses: the cache root exists but the
version stamp file is missing. -/
def fsNoStamp : FS :=
  { dirs := fun q => q = "/h/.cache/keops",
    files := fun _ => none }

/-- Modelled from the spec: the Kernel Artifact Registry
(`keops.get_keops_dll.get_keops_dll`), whose code is not under `src/`
(only its caller in `config.py` line 61 is).  Spec section 4.6: an
in-memory map from kernel signature to loaded handle, a build folder
under which artifact paths are computed, a durable on-disk artifact set,
and a toolchain-invocation counter used by the testable property of
section 8.  Handles are identified by a fresh counter, so two loads would
yield distinct handles and reference-equality is meaningful. -/
structure KernelSystem where
  map : List (String × Nat)
  nextHandle : Nat
  toolchainCalls : Nat
  disk : List String
  buildFolder : String
deriving Repr, DecidableEq

/-- Lookup of a signature in the in-memory map of the Registry. -/
def ksLookup (m : List (String × Nat)) (sig : String) :
    Option (String × Nat) :=
  m.find? (fun kv => kv.1 == sig)

/-- Modelled from the spec: `get_kernel(signature, ...)`, spec section 4.6.
1. hot path: a `loaded` entry in the map is returned with no filesystem or
toolchain interaction; 2. on a miss, the artifact path is computed under
the build folder and, if the artifact already exists on disk, compilation
is skipped; 3. otherwise the toolchain is invoked to produce the artifact;
4.-5. the artifact is loaded into a fresh handle, stored in the map and
returned. -/
def KernelSystem.get_kernel (st : KernelSystem) (sig : String) :
    Nat × KernelSystem :=
  match ksLookup st.map sig with
  | some kv => (kv.2, st)
  | none =>
    let path := st.buildFolder ++ "/" ++ sig
    let st1 :=
      if st.disk.contains path then st
      else { st with toolchainCalls := st.toolchainCalls + 1,
                     disk := path :: st.disk }
    let h := st1.nextHandle
    (h, { st1 with nextHandle := h + 1, map := (sig, h) :: st1.map })

/-- Modelled from the spec: `reset(new_build_folder?)`, spec section 4.6:
clears the entire in-memory map and updates the build folder used for
future artifact path computation; artifacts on disk are not deleted. -/
def KernelSystem.reset (st : KernelSystem) (new_save_folder : String) :
    KernelSystem :=
  { st with map := [], buildFolder := new_save_folder }

/-- Run a sequence of `get_kernel` requests, keeping only the state. -/
def runRequests (l : List String) (st : KernelSystem) : KernelSystem :=
  match l with
  | [] => st
  | sig :: rest => runRequests rest (st.get_kernel sig).2

/-- `save_file = join(keops_cache_folder, "build_folder_location.txt")`
(`set_build_folder`, line 47). -/
def save_file (keops_cache_folder : String) : String :=
  keops_cache_folder ++ "/build_folder_location.txt"

/-- `default_build_path = join(keops_cache_folder, "build")` (line 18). -/
def default_build_path (keops_cache_folder : String) : String :=
  keops_cache_folder ++ "/build"

/-- The mutable module-level state that `set_build_folder` touches or
reads: the filesystem, the global `build_path`, the Registry, the
`use_cuda` flag and the module-level `jit_binary` value (line 73). -/
structure ConfigState where
  fs : FS
  build_path : String
  registry : KernelSystem
  use_cuda : Bool
  jit_binary : Option String

/-- Python truthiness of the `path` argument: `if not path` holds for
`None` and for the empty string. -/
def pathFalsy (path : Option String) : Bool :=
  match path with
  | none => true
  | some p => p == ""

/-- The path-resolution head of `set_build_folder` (lines 46-54): when
`path` is falsy, read the saved-location file if `read_save_file` is set
and the file exists, else fall back to the default build path; a truthy
`path` is used verbatim.  The remaining effects (lines 55-66) are in
`sbfApply`: the chosen directory is created (`exist_ok=True`), the
chosen path is written to the saved-location file, and when `reset_all`
is set the Registry is fully reset with the new folder and, under
`use_cuda`, the GPU JIT launcher artifact is built at the new location
if missing (`Gpu_link_compile.compile_jit_compile_dll`, modelled from
the spec: that module is not under `src/`; spec sections 4.2 and 6 place
the launcher binary at `<build_path>/keops_nvrtc.so`). -/
def sbfChosen (keops_cache_folder : String) (st : ConfigState)
    (path : Option String) (read_save_file : Bool) : String :=
  if pathFalsy path then
    match
      (if read_save_file then st.fs.readFile (save_file keops_cache_folder)
       else none) with
    | some saved => saved
    | none => default_build_path keops_cache_folder
  else path.getD ""

/-- The effectful tail of `set_build_folder` (lines 55-66), applied to
the already-resolved path `chosen`. -/
def sbfApply (keops_cache_folder : String) (st : ConfigState)
    (chosen : String) (reset_all : Bool) : ConfigState :=
  let fs1 := st.fs.makedirs chosen
  let fs2 := fs1.writeFile (save_file keops_cache_folder) chosen
  if reset_all then
    let reg := st.registry.reset chosen
    if st.use_cuda then
      let jitPath := chosen ++ "/keops_nvrtc.so"
      let fs3 :=
        if (fs2.readFile jitPath).isSome then fs2
        else fs2.writeFile jitPath "jit_compile_dll"
      { st with fs := fs3, build_path := chosen, registry := reg }
    else
      { st with fs := fs2, build_path := chosen, registry := reg }
  else
    { st with fs := fs2, build_path := chosen }

/-- `set_build_folder` itself: resolve the path, then apply the
effects. -/
def set_build_folder (keops_cache_folder : String) (st : ConfigState)
    (path : Option String) (read_save_file reset_all : Bool) :
    ConfigState :=
  sbfApply keops_cache_folder st
    (sbfChosen keops_cache_folder st path read_save_file) reset_all

/-- `compile_options` (line 77). -/
def compile_options : String := " -shared -fPIC -O3 -std=c++11"

/-- The diagnostic of line 89-91. -/
def ompWarning : String :=
  "OpenMP support is disabled on Mac by default, see the doc for enabling it."

/-- Outcome of the module-level cpp flag assembly (lines 81-102): the
final `use_OpenMP` value, the final `cpp_flags` string and the
`KeOps_Warning` diagnostics emitted along the way. -/
structure FlagsResult where
  use_OpenMP : Bool
  cpp_flags : String
  warnings : List String
deriving Repr, DecidableEq

/-- The module-level cpp flag assembly (lines 81-102) as a function of
the initial `use_OpenMP` value (`True` at line 11), the platform string
(`platform.system()`), the `KMP_DUPLICATE_LIB_OK` environment variable
(`os.getenv`: `none` when unset) and `bindings_source_dir`.  On Darwin,
OpenMP is kept only when the variable equals `"TRUE"`; the Darwin link
flag is appended next, and the include flag is appended at the end. -/
def assemble_cpp_flags (use_OpenMP0 : Bool) (platform : String)
    (kmp_env : Option String) (bindings_source_dir : String) :
    FlagsResult :=
  let cpp0 := compile_options ++ " -flto"
  let step1 : Bool × String × List String :=
    if use_OpenMP0 then
      if platform = "Darwin" then
        if ¬ (kmp_env = some "TRUE") then
          (false, cpp0, [ompWarning])
        else
          (true, cpp0 ++ " -Xclang -fopenmp -lomp ", [])
      else
        (true, cpp0 ++ " -fopenmp -fno-fat-lto-objects", [])
    else
      (use_OpenMP0, cpp0, [])
  let cpp2 :=
    if platform = "Darwin" then step1.2.1 ++ " -undefined dynamic_lookup"
    else step1.2.1
  let cpp3 := cpp2 ++ (" -I" ++ bindings_source_dir)
  { use_OpenMP := step1.1, cpp_flags := cpp3, warnings := step1.2.2 }

/-- The diagnostic of lines 113-115. -/
def cudaMissingWarning : String :=
  "Cuda libraries were not detected on the system ; using cpu only mode"

/-- The diagnostic of lines 118-120. -/
def cudaDisabledWarning : String :=
  "Cuda appears to be available on your system, but use_cuda is set to False in config.py. Using cpu only mode"

/-- Modelled from the spec: the diagnostic that `get_gpu_props`
(`keops.utils.gpu_utils`, not under `src/`) issues when no usable GPU is
found; the comment at line 109 and spec section 4.4 record that it warns
exactly when capability is absent. -/
def gpuPropsWarning : String :=
  "KeOps: no GPU detected, using cpu only mode"

/-- The environment facts the GPU capability probe depends on: which
shared libraries `ctypes.util.find_library` resolves, and the device
count that `get_gpu_props` reports. -/
structure CudaProbe where
  availableLibs : List String
  gpuCount : Nat
deriving Repr, DecidableEq

/-- Outcome of the module-level GPU capability block (lines 107-123):
final `use_cuda`, `cuda_available` and the diagnostics emitted. -/
structure ProbeResult where
  use_cuda : Bool
  cuda_available : Bool
  warnings : List String
deriving Repr, DecidableEq

/-- The module-level GPU capability block (lines 107-123) as a function
of the initial `use_cuda` value (`True` at line 10) and the probed
environment.  Both required libraries must resolve by name; then
capability holds iff the device count is positive (`get_gpu_props` warns
when it is zero, modelled from the spec); a request for GPU mode without
capability is downgraded to `use_cuda = False`. -/
def probe_cuda (use_cuda0 : Bool) (p : CudaProbe) : ProbeResult :=
  let libsOk := ["cuda", "nvrtc"].all (fun lib => p.availableLibs.contains lib)
  let (cuda_available, ws1) :=
    if libsOk then
      (decide (p.gpuCount > 0),
       if p.gpuCount = 0 then [gpuPropsWarning] else [])
    else
      (false, [cudaMissingWarning])
  let ws2 :=
    if ¬ use_cuda0 ∧ cuda_available then ws1 ++ [cudaDisabledWarning] else ws1
  let use_cuda1 := if use_cuda0 ∧ ¬ cuda_available then false else use_cuda0
  { use_cuda := use_cuda1, cuda_available := cuda_available, warnings := ws2 }

/-- The GPU-dependent module-level values (lines 125-153): each is
`some` when `use_cuda` is on and `None` otherwise; `jit_binary` (set at
line 73 from the import-time build path) is overwritten with `None` at
line 153 when `use_cuda` is off. -/
structure CudaSettings where
  cuda_version : Option Nat
  libcuda_folder : Option String
  libnvrtc_folder : Option String
  nvrtc_flags : Option String
  nvrtc_include : Option String
  cuda_include_path : Option String
  jit_source_file : Option String
  jit_source_header : Option String
  jit_binary : Option String
deriving Repr, DecidableEq

/-- Lines 125-153 as a function of the final `use_cuda` value, the
import-time `jit_binary` value and the values probed by
`keops.utils.gpu_utils` (that module is not under `src/`; its outputs
are parameters here).  With `use_cuda` off every field is `None`. -/
def cuda_settings (use_cuda : Bool) (jit_binary0 : Option String)
    (version : Nat) (cudaFolder nvrtcFolder : String)
    (includePath : Option String) (base_dir bindings_dir : String) :
    CudaSettings :=
  if use_cuda then
    { cuda_version := some version,
      libcuda_folder := some cudaFolder,
      libnvrtc_folder := some nvrtcFolder,
      nvrtc_flags := some (compile_options ++ " -fpermissive -L" ++
        cudaFolder ++ " -L" ++ nvrtcFolder ++ " -lcuda -lnvrtc"),
      nvrtc_include := some (" -I" ++ bindings_dir ++
        (match includePath with
         | some p => " -I" ++ p
         | none => "")),
      cuda_include_path := includePath,
      jit_source_file := some (base_dir ++ "/binders/nvrtc/keops_nvrtc.cpp"),
      jit_source_header := some (base_dir ++ "/binders/nvrtc/keops_nvrtc.h"),
      jit_binary := jit_binary0 }
  else
    { cuda_version := none, libcuda_folder := none, libnvrtc_folder := none,
      nvrtc_flags := none, nvrtc_include := none, cuda_include_path := none,
      jit_source_file := none, jit_source_header := none, jit_binary := none }

/-- The process-wide state that `init_cudalibs` (lines 155-166) touches:
the guard flag (`init_cudalibs_flag`, initialised `False` at line 155)
and the shared libraries so far loaded with `RTLD_GLOBAL`, in load
order. -/
structure ProcState where
  init_cudalibs_flag : Bool
  loadedLibs : List String
deriving Repr, DecidableEq

/-- `init_cudalibs()` (lines 158-165): when the flag is unset, load
`nvrtc`, `cuda` and `cudart` into the global symbol scope and set the
flag; otherwise do nothing. -/
def init_cudalibs (st : ProcState) : ProcState :=
  if st.init_cudalibs_flag then st
  else { init_cudalibs_flag := true,
         loadedLibs := st.loadedLibs ++ ["nvrtc", "cuda", "cudart"] }

/-- A Registry holding one loaded handle, used by concrete instances. -/
def ks0 : KernelSystem :=
  { map := [("sig", 0)], nextHandle := 1, toolchainCalls := 1,
    disk := ["/old/sig"], buildFolder := "/old" }

/-- A concrete module state with GPU mode off, used by counterexamples. -/
def cfg0 : ConfigState :=
  { fs := fsStale, build_path := "/old", registry := ks0,
    use_cuda := false, jit_binary := some "/old/keops_nvrtc.so" }

/-- A concrete module state with GPU mode on, used by witnesses. -/
def cfgCuda : ConfigState :=
  { fs := fsStale, build_path := "/h/.cache/keops/build", registry := ks0,
    use_cuda := true,
    jit_binary := some "/h/.cache/keops/build/keops_nvrtc.so" }

/-- `t` occurs at the very end of `s`. -/
def endsIn (s t : String) : Bool := t.data.isSuffixOf s.data

theorem ksLookup_get_kernel_self (st : KernelSystem) (sig : String) :
    ksLookup (st.get_kernel sig).2.map sig =
      some (sig, (st.get_kernel sig).1) := by
  unfold KernelSystem.get_kernel
  cases hf : ksLookup st.map sig with
  | some kv =>
    have hp := List.find?_some hf
    have hk : kv.1 = sig := by simpa using hp
    cases kv with
    | mk a b =>
      simp only at hk
      subst hk
      simpa using hf
  | none =>
    simp [ksLookup, List.find?_cons_of_pos]

theorem ksLookup_get_kernel_preserved (st : KernelSystem) (sig sg : String)
    (e : String × Nat) (h : ksLookup st.map sig = some e) :
    ksLookup (st.get_kernel sg).2.map sig = some e := by
  unfold KernelSystem.get_kernel
  cases hf : ksLookup st.map sg with
  | some kv => simpa using h
  | none =>
    have hne : (sg == sig) = false := by
      rcases eq_or_ne sg sig with h1 | h1
      · subst h1
        rw [hf] at h
        exact Option.noConfusion h
      · exact beq_eq_false_iff_ne.mpr h1
    by_cases hd : (st.buildFolder ++ "/" ++ sg) ∈ st.disk
    · simpa [hd, ksLookup, List.find?_cons_of_neg, hne] using h
    · simpa [hd, ksLookup, List.find?_cons_of_neg, hne] using h

theorem ksLookup_runRequests (l : List String) (st : KernelSystem)
    (sig : String) (e : String × Nat)
    (h : ksLookup st.map sig = some e) :
    ksLookup (runRequests l st).map sig = some e := by
  induction l generalizing st with
  | nil => simpa [runRequests] using h
  | cons sg rest ih =>
    exact ih _ (ksLookup_get_kernel_preserved st sig sg e h)

theorem get_kernel_hot (st : KernelSystem) (sig : String)
    (e : String × Nat) (h : ksLookup st.map sig = some e) :
    st.get_kernel sig = (e.2, st) := by
  unfold KernelSystem.get_kernel
  rw [h]

/-- Claim C1: within one process, a repeated request for the same kernel
signature — with arbitrary other requests in between — returns the very
same handle as the first request, leaves the Registry state (and so the
toolchain-invocation count) completely unchanged, and the first request
itself invokes the toolchain at most once. -/
theorem get_kernel_same_signature_cached (st : KernelSystem)
    (sig : String) (l : List String) :
    ((runRequests l (st.get_kernel sig).2).get_kernel sig).1 =
      (st.get_kernel sig).1 ∧
    ((runRequests l (st.get_kernel sig).2).get_kernel sig).2 =
      runRequests l (st.get_kernel sig).2 ∧
    (st.get_kernel sig).2.toolchainCalls ≤ st.toolchainCalls + 1 := by
  have h1 := ksLookup_get_kernel_self st sig
  have h2 := ksLookup_runRequests l _ sig _ h1
  have h3 := get_kernel_hot _ sig _ h2
  refine ⟨by rw [h3], by rw [h3], ?_⟩
  unfold KernelSystem.get_kernel
  cases hf : ksLookup st.map sig with
  | some kv => exact Nat.le_succ _
  | none =>
    by_cases hd : (st.buildFolder ++ "/" ++ sig) ∈ st.disk
    · simp [hd]
    · simp [hd]

/-- Claim C2: at cache initialisation, an existing cache root whose
stamp differs from the running version is wiped recursively and
recreated holding only the current version stamp; a missing cache root
is created with the current version stamp. -/
theorem initCache_version_drift (root version : String) (fs : FS) :
    (fs.dirExists root = true →
      ∀ c, fs.readFile (version_cache_file root) = some c →
        rstrip c ≠ version →
        ∃ fs2, initCache root version fs = .ok fs2 ∧
          fs2.dirExists root = true ∧
          fs2.readFile (version_cache_file root) = some version ∧
          (∀ p, underRoot root p = true → p ≠ version_cache_file root →
            fs2.readFile p = none) ∧
          (∀ p, underRoot root p = true → p ≠ root →
            fs2.dirs p = false)) ∧
    (fs.dirExists root = false →
      ∃ fs2, initCache root version fs = .ok fs2 ∧
        fs2.dirExists root = true ∧
        fs2.readFile (version_cache_file root) = some version) := by
  constructor
  · intro hdir c hread hne
    refine ⟨((fs.rmtree root).makedirs root).writeFile
      (version_cache_file root) version, ?_, ?_, ?_, ?_, ?_⟩
    · simp [initCache, hdir, hread, hne]
    · simp [FS.dirExists, FS.writeFile, FS.makedirs]
    · simp [FS.readFile, FS.writeFile]
    · intro p hp hps
      simp [FS.readFile, FS.writeFile, FS.makedirs, FS.rmtree, hps, hp]
    · intro p hp hpr
      simp [FS.writeFile, FS.makedirs, FS.rmtree, hpr, hp]
  · intro hdir
    refine ⟨(fs.makedirs root).writeFile
      (version_cache_file root) version, ?_, ?_, ?_⟩
    · simp [initCache, hdir]
    · simp [FS.dirExists, FS.writeFile, FS.makedirs]
    · simp [FS.readFile, FS.writeFile]

/-- Spot check for C2 at a concrete stale cache: stamped `"1.0"`,
running version `"1.1"`. -/
theorem initCache_version_drift_spot :
    ∃ fs2, initCache "/h/.cache/keops" "1.1" fsStale = .ok fs2 ∧
      fs2.dirExists "/h/.cache/keops" = true ∧
      fs2.readFile (version_cache_file "/h/.cache/keops") = some "1.1" ∧
      (∀ p, underRoot "/h/.cache/keops" p = true →
        p ≠ version_cache_file "/h/.cache/keops" → fs2.readFile p = none) ∧
      (∀ p, underRoot "/h/.cache/keops" p = true → p ≠ "/h/.cache/keops" →
        fs2.dirs p = false) :=
  (initCache_version_drift "/h/.cache/keops" "1.1" fsStale).1
    (by decide) "1.0" (by decide) (by decide)

/-- Claim C10: an existing cache root with no version stamp file makes
initialisation fail with an uncaught file error instead of
reinitialising the cache. -/
theorem initCache_missing_stamp (root version : String) (fs : FS)
    (hdir : fs.dirExists root = true)
    (hmiss : fs.readFile (version_cache_file root) = none) :
    initCache root version fs = .error "FileNotFoundError" := by
  simp [initCache, hdir, hmiss]

/-- Spot check for C10: cache root present, stamp file absent. -/
theorem initCache_missing_stamp_spot :
    initCache "/h/.cache/keops" "1.1" fsNoStamp =
      .error "FileNotFoundError" :=
  initCache_missing_stamp "/h/.cache/keops" "1.1" fsNoStamp
    (by decide) (by decide)

/-- Claim C8: `init_cudalibs` is idempotent and monotonic: from an unset
flag it loads exactly `nvrtc`, `cuda`, `cudart` into the global scope
and sets the flag; with the flag set it is a no-op; after any call the
flag is set, and it is never reset. -/
theorem init_cudalibs_idempotent_monotonic (st : ProcState) :
    (st.init_cudalibs_flag = false →
      init_cudalibs st =
        { init_cudalibs_flag := true,
          loadedLibs := st.loadedLibs ++ ["nvrtc", "cuda", "cudart"] }) ∧
    (st.init_cudalibs_flag = true → init_cudalibs st = st) ∧
    init_cudalibs (init_cudalibs st) = init_cudalibs st ∧
    (init_cudalibs st).init_cudalibs_flag = true := by
  cases hf : st.init_cudalibs_flag with
  | false => simp [init_cudalibs, hf]
  | true =>
    refine ⟨by simp [hf], ?_, ?_, ?_⟩ <;> simp [init_cudalibs, hf]

/-- Spot check for C8 from the initial process state (flag unset, nothing
loaded): the first call loads the three libraries and the second call
changes nothing. -/
theorem init_cudalibs_spot :
    init_cudalibs ⟨false, []⟩ =
      ⟨true, ["nvrtc", "cuda", "cudart"]⟩ ∧
    init_cudalibs (init_cudalibs ⟨false, []⟩) =
      init_cudalibs ⟨false, []⟩ :=
  ⟨(init_cudalibs_idempotent_monotonic ⟨false, []⟩).1 rfl,
   (init_cudalibs_idempotent_monotonic ⟨false, []⟩).2.2.1⟩

/-- Claim C9: `set_build_folder` never touches the module-level
`jit_binary` value: it stays the join of the import-time build path with
`"keops_nvrtc.so"` even when the call relocates `build_path`. -/
theorem set_build_folder_keeps_jit_binary (root : String)
    (st : ConfigState) (p0 : String)
    (h : st.jit_binary = some (p0 ++ "/keops_nvrtc.so"))
    (path : Option String) (rsf ra : Bool) :
    (set_build_folder root st path rsf ra).jit_binary =
      some (p0 ++ "/keops_nvrtc.so") := by
  simp [set_build_folder, sbfApply, apply_ite ConfigState.jit_binary, h]

/-- Spot check for C9: a call that moves the build path from `"/old"` to
`"/new"` leaves `jit_binary` at the old location. -/
theorem set_build_folder_keeps_jit_binary_spot :
    (set_build_folder "/h/.cache/keops" cfg0 (some "/new") false
      true).build_path = "/new" ∧
    (set_build_folder "/h/.cache/keops" cfg0 (some "/new") false
      true).jit_binary = some ("/old" ++ "/keops_nvrtc.so") :=
  ⟨by decide,
   set_build_folder_keeps_jit_binary "/h/.cache/keops" cfg0 "/old"
     (by decide) (some "/new") false true⟩

/-- Claim C6: with OpenMP requested (the module constant is `True`),
the OpenMP flag set is added unless the platform is Darwin and
`KMP_DUPLICATE_LIB_OK` is not `"TRUE"`; in that case `use_OpenMP` is
set to `False`, the flags carry no OpenMP option, and exactly the one
diagnostic is emitted. -/
theorem openmp_flag_policy (platform : String) (kmp : Option String)
    (dir : String) :
    (platform = "Darwin" → ¬ kmp = some "TRUE" →
      (assemble_cpp_flags true platform kmp dir).use_OpenMP = false ∧
      (assemble_cpp_flags true platform kmp dir).warnings = [ompWarning] ∧
      (assemble_cpp_flags true platform kmp dir).cpp_flags =
        (compile_options ++ " -flto") ++ " -undefined dynamic_lookup" ++
          (" -I" ++ dir)) ∧
    (platform = "Darwin" → kmp = some "TRUE" →
      (assemble_cpp_flags true platform kmp dir).use_OpenMP = true ∧
      (assemble_cpp_flags true platform kmp dir).warnings = [] ∧
      (assemble_cpp_flags true platform kmp dir).cpp_flags =
        ((compile_options ++ " -flto") ++ " -Xclang -fopenmp -lomp ") ++
          " -undefined dynamic_lookup" ++ (" -I" ++ dir)) ∧
    (platform ≠ "Darwin" →
      (assemble_cpp_flags true platform kmp dir).use_OpenMP = true ∧
      (assemble_cpp_flags true platform kmp dir).warnings = [] ∧
      (assemble_cpp_flags true platform kmp dir).cpp_flags =
        ((compile_options ++ " -flto") ++
          " -fopenmp -fno-fat-lto-objects") ++ (" -I" ++ dir)) := by
  refine ⟨?_, ?_, ?_⟩ <;> intro h1 <;>
    first
      | (intro h2
         simp [assemble_cpp_flags, h1, h2, String.append_assoc])
      | simp [assemble_cpp_flags, h1, String.append_assoc]

/-- Spot check for C6 on Darwin with the opt-in variable unset. -/
theorem openmp_flag_policy_spot :
    (assemble_cpp_flags true "Darwin" none "/kp").use_OpenMP = false ∧
    (assemble_cpp_flags true "Darwin" none "/kp").warnings =
      [ompWarning] ∧
    (assemble_cpp_flags true "Darwin" none "/kp").cpp_flags =
      (compile_options ++ " -flto") ++ " -undefined dynamic_lookup" ++
        (" -I" ++ "/kp") :=
  (openmp_flag_policy "Darwin" none "/kp").1 rfl (by decide)

/-- Counterexample for C7: on Darwin the assembled flag string ends with
the include flag, not with the platform link flag
`-undefined dynamic_lookup`, so platform-specific link flags are not
appended after every other flag group. -/
theorem cpp_flags_link_not_last :
    endsIn (assemble_cpp_flags true "Darwin" (some "TRUE") "/kp").cpp_flags
      " -I/kp" = true ∧
    endsIn (assemble_cpp_flags true "Darwin" (some "TRUE") "/kp").cpp_flags
      " -undefined dynamic_lookup" = false := by
  decide

/-- Claim C7 (amended): the platform-specific link flags come after the
base and parallel-CPU flag groups, and the include flag is the one
group appended after them, terminating the string. -/
theorem cpp_flags_link_then_include (u0 : Bool) (platform : String)
    (kmp : Option String) (dir : String) :
    ∃ s, (assemble_cpp_flags u0 platform kmp dir).cpp_flags =
        s ++ (" -I" ++ dir) ∧
      (platform = "Darwin" →
        ∃ t, s = t ++ " -undefined dynamic_lookup") := by
  by_cases hd : platform = "Darwin"
  · cases u0 with
    | true =>
      by_cases hk : kmp = some "TRUE"
      · exact ⟨((compile_options ++ " -flto") ++ " -Xclang -fopenmp -lomp ")
            ++ " -undefined dynamic_lookup",
          by simp [assemble_cpp_flags, hd, hk],
          fun _ => ⟨(compile_options ++ " -flto") ++
            " -Xclang -fopenmp -lomp ", rfl⟩⟩
      · exact ⟨(compile_options ++ " -flto") ++ " -undefined dynamic_lookup",
          by simp [assemble_cpp_flags, hd, hk],
          fun _ => ⟨compile_options ++ " -flto", rfl⟩⟩
    | false =>
      exact ⟨(compile_options ++ " -flto") ++ " -undefined dynamic_lookup",
        by simp [assemble_cpp_flags, hd],
        fun _ => ⟨compile_options ++ " -flto", rfl⟩⟩
  · cases u0 with
    | true =>
      exact ⟨(compile_options ++ " -flto") ++
          " -fopenmp -fno-fat-lto-objects",
        by simp [assemble_cpp_flags, hd],
        fun hc => absurd hc hd⟩
    | false =>
      exact ⟨compile_options ++ " -flto",
        by simp [assemble_cpp_flags, hd],
        fun hc => absurd hc hd⟩

/-- Spot check for C7 (amended) on Darwin. -/
theorem cpp_flags_link_then_include_spot :
    ∃ s, (assemble_cpp_flags true "Darwin" (some "TRUE") "/kp").cpp_flags =
        s ++ (" -I" ++ "/kp") ∧
      ("Darwin" = "Darwin" →
        ∃ t, s = t ++ " -undefined dynamic_lookup") :=
  cpp_flags_link_then_include true "Darwin" (some "TRUE") "/kp"

/-- Claim C5: when GPU mode is requested but a required library does not
resolve or the device count is zero, the probe (a total function: no
exception) forces `use_cuda` to `False`, reports no capability, emits a
diagnostic, and the GPU-dependent settings all collapse to `None`
(CPU-only configuration). -/
theorem cuda_unavailable_downgrade (p : CudaProbe)
    (h : (["cuda", "nvrtc"].all
        (fun lib => p.availableLibs.contains lib)) = false ∨
      p.gpuCount = 0)
    (jb : Option String) (v : Nat) (cf nf : String)
    (ip : Option String) (bd bsd : String) :
    (probe_cuda true p).use_cuda = false ∧
    (probe_cuda true p).cuda_available = false ∧
    (probe_cuda true p).warnings ≠ [] ∧
    cuda_settings (probe_cuda true p).use_cuda jb v cf nf ip bd bsd =
      ⟨none, none, none, none, none, none, none, none, none⟩ := by
  by_cases hl : (["cuda", "nvrtc"].all
      (fun lib => p.availableLibs.contains lib)) = true
  · have hz : p.gpuCount = 0 := by
      cases h with
      | inl h1 => rw [hl] at h1; exact absurd h1 (by simp)
      | inr h1 => exact h1
    have hm : "cuda" ∈ p.availableLibs ∧ "nvrtc" ∈ p.availableLibs := by
      simpa using hl
    simp [probe_cuda, hm.1, hm.2, hz, cuda_settings]
  · have hm2 : ¬("cuda" ∈ p.availableLibs ∧ "nvrtc" ∈ p.availableLibs) := by
      intro hc
      exact hl (by simp [hc.1, hc.2])
    simp [probe_cuda, hm2, cuda_settings]

/-- Spot check for C5 with no resolvable libraries at all. -/
theorem cuda_unavailable_downgrade_spot :
    (probe_cuda true ⟨[], 0⟩).use_cuda = false ∧
    (probe_cuda true ⟨[], 0⟩).cuda_available = false ∧
    (probe_cuda true ⟨[], 0⟩).warnings ≠ [] ∧
    cuda_settings (probe_cuda true ⟨[], 0⟩).use_cuda
        (some "/b/keops_nvrtc.so") 11 "/lc" "/ln" none "/kp" "/kp" =
      ⟨none, none, none, none, none, none, none, none, none⟩ :=
  cuda_unavailable_downgrade ⟨[], 0⟩ (Or.inl (by decide))
    (some "/b/keops_nvrtc.so") 11 "/lc" "/ln" none "/kp" "/kp"

/-- Counterexample for C3: a call that changes the build path (from
`"/old"` to `"/new"`) but passes `reset_all=False` leaves the Registry —
including its loaded handle for `"sig"` — completely untouched, so a
build-path change alone does not drop loaded kernel handles. -/
theorem set_build_folder_change_without_reset :
    (set_build_folder "/h/.cache/keops" cfg0 (some "/new") false
      false).build_path ≠ cfg0.build_path ∧
    (set_build_folder "/h/.cache/keops" cfg0 (some "/new") false
      false).registry = cfg0.registry ∧
    cfg0.registry.map ≠ [] := by
  decide

/-- Claim C3 (amended): every `set_build_folder` call with
`reset_all=True` drops all loaded handles (the Registry map is emptied
and re-rooted at the new build path) and, when GPU mode is on, leaves
the GPU JIT launcher artifact present at the new location. -/
theorem set_build_folder_reset_all_drops_handles (root : String)
    (st : ConfigState) (path : Option String) (rsf : Bool) :
    (set_build_folder root st path rsf true).registry.map = [] ∧
    (set_build_folder root st path rsf true).registry.buildFolder =
      (set_build_folder root st path rsf true).build_path ∧
    (st.use_cuda = true →
      ((set_build_folder root st path rsf true).fs.readFile
        ((set_build_folder root st path rsf true).build_path ++
          "/keops_nvrtc.so")).isSome = true) := by
  refine ⟨?_, ?_, ?_⟩
  · simp [set_build_folder, sbfApply, KernelSystem.reset,
      apply_ite ConfigState.registry, ite_self]
  · simp [set_build_folder, sbfApply, KernelSystem.reset,
      apply_ite ConfigState.registry, apply_ite ConfigState.build_path,
      ite_self]
  · intro hcu
    simp only [set_build_folder, sbfApply, hcu, if_true,
      apply_ite ConfigState.build_path, ite_self]
    split
    · simp_all [FS.readFile]
    · simp_all [FS.readFile, FS.writeFile]

/-- Spot check for C3 (amended) with GPU mode on: the Registry map is
emptied and the JIT launcher exists under the new build path. -/
theorem set_build_folder_reset_all_drops_handles_spot :
    (set_build_folder "/h/.cache/keops" cfgCuda (some "/new") false
      true).registry.map = [] ∧
    (set_build_folder "/h/.cache/keops" cfgCuda (some "/new") false
      true).registry.buildFolder =
      (set_build_folder "/h/.cache/keops" cfgCuda (some "/new") false
        true).build_path ∧
    ((set_build_folder "/h/.cache/keops" cfgCuda (some "/new") false
      true).fs.readFile
        ((set_build_folder "/h/.cache/keops" cfgCuda (some "/new") false
          true).build_path ++ "/keops_nvrtc.so")).isSome = true :=
  ⟨(set_build_folder_reset_all_drops_handles "/h/.cache/keops" cfgCuda
      (some "/new") false).1,
   (set_build_folder_reset_all_drops_handles "/h/.cache/keops" cfgCuda
      (some "/new") false).2.1,
   (set_build_folder_reset_all_drops_handles "/h/.cache/keops" cfgCuda
      (some "/new") false).2.2 (by decide)⟩

theorem append_ne_of_getLast_ne (a b c d : String) (hc : c.data ≠ [])
    (hd2 : d.data ≠ []) (h : c.data.getLast? ≠ d.data.getLast?) :
    a ++ c ≠ b ++ d := by
  intro he
  apply h
  have h2 : a.data ++ c.data = b.data ++ d.data := by
    rw [← String.data_append, ← String.data_append, he]
  calc c.data.getLast? = (a.data ++ c.data).getLast? :=
        (List.getLast?_append_of_ne_nil a.data hc).symm
    _ = (b.data ++ d.data).getLast? := by rw [h2]
    _ = d.data.getLast? := List.getLast?_append_of_ne_nil b.data hd2

theorem save_file_ne_jit (root chosen : String) :
    save_file root ≠ chosen ++ "/keops_nvrtc.so" := by
  have h := append_ne_of_getLast_ne root chosen
    "/build_folder_location.txt" "/keops_nvrtc.so"
    (by decide) (by decide) (by decide)
  simpa [save_file] using h

theorem sbfApply_build_path (root : String) (st : ConfigState)
    (ch : String) (ra : Bool) :
    (sbfApply root st ch ra).build_path = ch := by
  simp [sbfApply, apply_ite ConfigState.build_path, ite_self]

theorem sbfApply_dirs (root : String) (st : ConfigState) (ch : String)
    (ra : Bool) :
    (sbfApply root st ch ra).fs.dirs ch = true := by
  unfold sbfApply
  split
  · split
    · dsimp only
      split
      · simp [FS.writeFile, FS.makedirs]
      · simp [FS.writeFile, FS.makedirs]
    · simp [FS.writeFile, FS.makedirs]
  · simp [FS.writeFile, FS.makedirs]

theorem sbfApply_save_file (root : String) (st : ConfigState)
    (ch : String) (ra : Bool) :
    (sbfApply root st ch ra).fs.readFile (save_file root) = some ch := by
  unfold sbfApply
  split
  · split
    · dsimp only
      split
      · simp [FS.readFile, FS.writeFile]
      · simp [FS.readFile, FS.writeFile, save_file_ne_jit root ch]
    · simp [FS.readFile, FS.writeFile]
  · simp [FS.readFile, FS.writeFile]

/-- Counterexample for C4: the explicitly given path `""` is not used
verbatim — `set_build_folder` falls through to the default subdirectory
of the cache root, because the source tests Python truthiness
(`if not path`), not whether an argument was supplied. -/
theorem set_build_folder_empty_path_not_verbatim :
    (set_build_folder "/h/.cache/keops" cfg0 (some "") false
      false).build_path ≠ "" ∧
    (set_build_folder "/h/.cache/keops" cfg0 (some "") false
      false).build_path = default_build_path "/h/.cache/keops" := by
  decide

/-- Claim C4 (amended): `set_build_folder` resolves the build path with
this precedence — a given non-empty path is used verbatim; otherwise,
with `read_save_file` set and the saved-location file present, its
contents are used; otherwise the default subdirectory of the cache root
is used — and the chosen directory is created if absent and the chosen
path is written to the saved-location file. -/
theorem set_build_folder_path_resolution (root : String)
    (st : ConfigState) (path : Option String) (rsf ra : Bool) :
    (∀ p, path = some p → p ≠ "" →
      (set_build_folder root st path rsf ra).build_path = p) ∧
    (pathFalsy path = true → rsf = true →
      ∀ s, st.fs.readFile (save_file root) = some s →
        (set_build_folder root st path rsf ra).build_path = s) ∧
    (pathFalsy path = true →
      (rsf = false ∨ st.fs.readFile (save_file root) = none) →
      (set_build_folder root st path rsf ra).build_path =
        default_build_path root) ∧
    (set_build_folder root st path rsf ra).fs.dirs
      (set_build_folder root st path rsf ra).build_path = true ∧
    (set_build_folder root st path rsf ra).fs.readFile (save_file root) =
      some (set_build_folder root st path rsf ra).build_path := by
  have hbp : (set_build_folder root st path rsf ra).build_path =
      sbfChosen root st path rsf :=
    sbfApply_build_path root st (sbfChosen root st path rsf) ra
  refine ⟨?_, ?_, ?_, ?_, ?_⟩
  · intro p hp hne
    rw [hbp]
    subst hp
    have hf : pathFalsy (some p) = false := by simp [pathFalsy, hne]
    simp [sbfChosen, hf]
  · intro hf hr s hs
    rw [hbp]
    simp [sbfChosen, hf, hr, hs]
  · intro hf hc
    rw [hbp]
    cases hc with
    | inl h1 => simp [sbfChosen, hf, h1]
    | inr h1 => simp [sbfChosen, hf, h1]
  · rw [hbp]
    exact sbfApply_dirs root st (sbfChosen root st path rsf) ra
  · rw [hbp]
    exact sbfApply_save_file root st (sbfChosen root st path rsf) ra

/-- Spot check for C4 (amended): a given non-empty path is used
verbatim, its directory exists afterwards, and it is persisted to the
saved-location file. -/
theorem set_build_folder_path_resolution_spot :
    (set_build_folder "/h/.cache/keops" cfg0 (some "/new") false
      false).build_path = "/new" ∧
    (set_build_folder "/h/.cache/keops" cfg0 (some "/new") false
      false).fs.dirs
      (set_build_folder "/h/.cache/keops" cfg0 (some "/new") false
        false).build_path = true ∧
    (set_build_folder "/h/.cache/keops" cfg0 (some "/new") false
      false).fs.readFile (save_file "/h/.cache/keops") =
      some (set_build_folder "/h/.cache/keops" cfg0 (some "/new") false
        false).build_path :=
  ⟨(set_build_folder_path_resolution "/h/.cache/keops" cfg0 (some "/new")
      false false).1 "/new" rfl (by decide),
   (set_build_folder_path_resolution "/h/.cache/keops" cfg0 (some "/new")
      false false).2.2.2.1,
   (set_build_folder_path_resolution "/h/.cache/keops" cfg0 (some "/new")
      false false).2.2.2.2⟩
